import Mathlib

/-!
Shallow embedding of the water-quality scoring application
(`src/water_quality_app.py`): the input validator `validate_input`, the
scorer `predict_water_quality`, and the session history ledger manipulated
by `water_test_page` / `history_page`.  Numeric values are modelled by `ℚ`.
-/

namespace WaterQuality

/-- A measurement record: the nine named numeric fields of the `data`
dictionary passed to `validate_input` and `predict_water_quality`. -/
structure Measurement where
  ph : ℚ
  hardness : ℚ
  solids : ℚ
  chloramines : ℚ
  sulfate : ℚ
  conductivity : ℚ
  organic_carbon : ℚ
  trihalomethanes : ℚ
  turbidity : ℚ
deriving DecidableEq, Repr

/-- Per-parameter status entry: the `{'status': ..., 'value': ..., 'unit': ...}`
dictionaries stored in `parameter_status`. -/
structure ParamStatus where
  status : String
  value : ℚ
  unit : String
deriving DecidableEq, Repr

/-- The dictionary returned by `predict_water_quality` on success. -/
structure ScoreResult where
  potable : Bool
  confidence : ℚ
  quality : String
  parameters : List (String × ParamStatus)
deriving DecidableEq, Repr

/-! Feature importance weights (the `weights` dictionary, lines 163-173). -/

def w_sulfate : ℚ := 0.142
def w_ph : ℚ := 0.128
def w_hardness : ℚ := 0.119
def w_solids : ℚ := 0.114
def w_chloramines : ℚ := 0.108
def w_conductivity : ℚ := 0.102
def w_organic_carbon : ℚ := 0.098
def w_trihalomethanes : ℚ := 0.095
def w_turbidity : ℚ := 0.094

/-! Per-field checks of `predict_water_quality`, each mirroring one
`if`/`else` block: the score contribution added to `score`, and the
`parameter_status` entry recorded for the field. -/

/-- pH contribution (6.5-8.5 is optimal per WHO). -/
def ph_contrib (d : Measurement) : ℚ :=
  if 6.5 ≤ d.ph ∧ d.ph ≤ 8.5 then w_ph * 100 else w_ph * 50

/-- pH status entry. -/
def ph_entry (d : Measurement) : ParamStatus :=
  if 6.5 ≤ d.ph ∧ d.ph ≤ 8.5 then ⟨"good", d.ph, ""⟩ else ⟨"warning", d.ph, ""⟩

/-- Hardness contribution (<300 is good). -/
def hardness_contrib (d : Measurement) : ℚ :=
  if d.hardness < 300 then w_hardness * 100 else w_hardness * 60

/-- Hardness status entry. -/
def hardness_entry (d : Measurement) : ParamStatus :=
  if d.hardness < 300 then ⟨"good", d.hardness, "mg/L"⟩
  else ⟨"warning", d.hardness, "mg/L"⟩

/-- Sulfate contribution (<250 is good per EPA). -/
def sulfate_contrib (d : Measurement) : ℚ :=
  if d.sulfate < 250 then w_sulfate * 100 else w_sulfate * 50

/-- Sulfate status entry. -/
def sulfate_entry (d : Measurement) : ParamStatus :=
  if d.sulfate < 250 then ⟨"good", d.sulfate, "mg/L"⟩
  else ⟨"warning", d.sulfate, "mg/L"⟩

/-- Solids/TDS contribution: the only three-tier field
(<500 → 100, <1000 → 70, else → 40). -/
def solids_contrib (d : Measurement) : ℚ :=
  if d.solids < 500 then w_solids * 100
  else if d.solids < 1000 then w_solids * 70
  else w_solids * 40

/-- Solids/TDS status entry (keyed "TDS"); only the first tier is "good". -/
def solids_entry (d : Measurement) : ParamStatus :=
  if d.solids < 500 then ⟨"good", d.solids, "ppm"⟩
  else if d.solids < 1000 then ⟨"warning", d.solids, "ppm"⟩
  else ⟨"warning", d.solids, "ppm"⟩

/-- Chloramines contribution (<4 is good per EPA). -/
def chloramines_contrib (d : Measurement) : ℚ :=
  if d.chloramines < 4 then w_chloramines * 100 else w_chloramines * 60

/-- Chloramines status entry. -/
def chloramines_entry (d : Measurement) : ParamStatus :=
  if d.chloramines < 4 then ⟨"good", d.chloramines, "ppm"⟩
  else ⟨"warning", d.chloramines, "ppm"⟩

/-- Conductivity contribution (<400 is good). -/
def conductivity_contrib (d : Measurement) : ℚ :=
  if d.conductivity < 400 then w_conductivity * 100 else w_conductivity * 70

/-- Conductivity status entry. -/
def conductivity_entry (d : Measurement) : ParamStatus :=
  if d.conductivity < 400 then ⟨"good", d.conductivity, "μS/cm"⟩
  else ⟨"warning", d.conductivity, "μS/cm"⟩

/-- Organic carbon contribution (<2 is good). -/
def organic_carbon_contrib (d : Measurement) : ℚ :=
  if d.organic_carbon < 2 then w_organic_carbon * 100 else w_organic_carbon * 70

/-- Organic carbon status entry. -/
def organic_carbon_entry (d : Measurement) : ParamStatus :=
  if d.organic_carbon < 2 then ⟨"good", d.organic_carbon, "ppm"⟩
  else ⟨"warning", d.organic_carbon, "ppm"⟩

/-- Trihalomethanes contribution (<80 is good per EPA). -/
def trihalomethanes_contrib (d : Measurement) : ℚ :=
  if d.trihalomethanes < 80 then w_trihalomethanes * 100
  else w_trihalomethanes * 50

/-- Trihalomethanes status entry. -/
def trihalomethanes_entry (d : Measurement) : ParamStatus :=
  if d.trihalomethanes < 80 then ⟨"good", d.trihalomethanes, "μg/L"⟩
  else ⟨"warning", d.trihalomethanes, "μg/L"⟩

/-- Turbidity contribution (<5 is good per WHO). -/
def turbidity_contrib (d : Measurement) : ℚ :=
  if d.turbidity < 5 then w_turbidity * 100 else w_turbidity * 60

/-- Turbidity status entry. -/
def turbidity_entry (d : Measurement) : ParamStatus :=
  if d.turbidity < 5 then ⟨"good", d.turbidity, "NTU"⟩
  else ⟨"warning", d.turbidity, "NTU"⟩

/-- The accumulated `score` after all nine checks, in the order the source
adds them (pH, hardness, sulfate, solids, chloramines, conductivity,
organic carbon, trihalomethanes, turbidity). -/
def rawScore (d : Measurement) : ℚ :=
  ph_contrib d + hardness_contrib d + sulfate_contrib d + solids_contrib d +
  chloramines_contrib d + conductivity_contrib d + organic_carbon_contrib d +
  trihalomethanes_contrib d + turbidity_contrib d

/-- The `parameter_status` dictionary, as an association list in the
insertion order of the source. -/
def parameterStatus (d : Measurement) : List (String × ParamStatus) :=
  [("pH", ph_entry d), ("Hardness", hardness_entry d),
   ("Sulfate", sulfate_entry d), ("TDS", solids_entry d),
   ("Chloramines", chloramines_entry d), ("Conductivity", conductivity_entry d),
   ("Organic Carbon", organic_carbon_entry d),
   ("Trihalomethanes", trihalomethanes_entry d),
   ("Turbidity", turbidity_entry d)]

/-- `final_score = score / 9` (line 254: average of the weighted scores). -/
def finalScore (d : Measurement) : ℚ := rawScore d / 9

/-- Rounding half-to-even at one decimal place, modelling Python's
`round(x, 1)`. -/
def round1 (x : ℚ) : ℚ :=
  (if Int.fract (x * 10) = 1/2 then
     (if 2 ∣ ⌊x * 10⌋ then ⌊x * 10⌋ else ⌊x * 10⌋ + 1)
   else round (x * 10) : ℤ) / 10

/-- The scorer `predict_water_quality` on a measurement with all nine
fields present (the body of the `try` block, lines 161-271). -/
def predict_water_quality (d : Measurement) : ScoreResult :=
  { potable := decide (70 < finalScore d)
    confidence := round1 (finalScore d)
    quality :=
      if 85 < finalScore d then "Excellent"
      else if 70 < finalScore d then "Good"
      else if 50 < finalScore d then "Fair"
      else "Poor"
    parameters := parameterStatus d }

/-! Validator warning messages (`validate_input`, lines 98-143). -/

def ph_hard_warning : String := "⚠️ pH is outside realistic range for natural water (4-10)"
def ph_soft_warning : String := "⚠️ pH is outside WHO recommended range (6.5-8.5)"
def hardness_warning : String := "⚠️ Water hardness is extremely high (>500 mg/L)"
def solids_warning : String := "⚠️ Total Dissolved Solids is extremely high (>1500 ppm)"
def chloramines_warning : String := "⚠️ Chloramines level is extremely high (>8 ppm)"
def sulfate_warning : String := "⚠️ Sulfate level exceeds WHO guideline (>500 mg/L)"
def conductivity_warning : String := "⚠️ Conductivity is extremely high (>1500 μS/cm)"
def organic_carbon_warning : String := "⚠️ Organic carbon is extremely high (>5 ppm)"
def trihalomethanes_warning : String := "⚠️ Trihalomethanes significantly exceed EPA limit (>160 μg/L)"
def turbidity_warning : String := "⚠️ Turbidity is extremely high (>10 NTU)"

/-- The validator `validate_input`: builds the `warnings` list by the
source's sequence of appends.  The pH check is an `if`/`elif` pair, so the
hard out-of-range branch excludes the soft WHO-range branch. -/
def validate_input (d : Measurement) : List String :=
  (if d.ph < 4 ∨ 10 < d.ph then [ph_hard_warning]
   else if d.ph < 6.5 ∨ 8.5 < d.ph then [ph_soft_warning] else []) ++
  (if 500 < d.hardness then [hardness_warning] else []) ++
  (if 1500 < d.solids then [solids_warning] else []) ++
  (if 8 < d.chloramines then [chloramines_warning] else []) ++
  (if 500 < d.sulfate then [sulfate_warning] else []) ++
  (if 1500 < d.conductivity then [conductivity_warning] else []) ++
  (if 5 < d.organic_carbon then [organic_carbon_warning] else []) ++
  (if 160 < d.trihalomethanes then [trihalomethanes_warning] else []) ++
  (if 10 < d.turbidity then [turbidity_warning] else [])

/-! Raw request data and the error path.  `predict_water_quality` in the
source takes a dictionary and wraps its body in `try`/`except`: a missing
field raises and the function returns `None`.  We model the dictionary as a
record of optional fields and the exception path as `Option`. -/

/-- The `data` dictionary of a request, with each field possibly absent. -/
structure RawInput where
  ph : Option ℚ
  hardness : Option ℚ
  solids : Option ℚ
  chloramines : Option ℚ
  sulfate : Option ℚ
  conductivity : Option ℚ
  organic_carbon : Option ℚ
  trihalomethanes : Option ℚ
  turbidity : Option ℚ
deriving DecidableEq, Repr

/-- `predict_water_quality` on raw request data: any missing field raises
inside the `try` block, the `except` handler shows an error and the
function returns `None` (lines 272-275). -/
def predict_water_quality_raw (d : RawInput) : Option ScoreResult := do
  let ph ← d.ph
  let hardness ← d.hardness
  let solids ← d.solids
  let chloramines ← d.chloramines
  let sulfate ← d.sulfate
  let conductivity ← d.conductivity
  let organic_carbon ← d.organic_carbon
  let trihalomethanes ← d.trihalomethanes
  let turbidity ← d.turbidity
  pure (predict_water_quality ⟨ph, hardness, solids, chloramines, sulfate,
    conductivity, organic_carbon, trihalomethanes, turbidity⟩)

/-- One entry of `st.session_state.history`. -/
structure HistoryEntry where
  timestamp : String
  result : ScoreResult
  data : RawInput

/-- Appending to the history (`water_test_page`, lines 500-502): insert at
the head, then truncate to the 50 most recent entries. -/
def appendHistory (entry : HistoryEntry) (history : List HistoryEntry) :
    List HistoryEntry :=
  let h := entry :: history
  if 50 < h.length then h.take 50 else h

/-- Clearing the history (`history_page`, line 826). -/
def clearHistory (_history : List HistoryEntry) : List HistoryEntry := []

/-- The analyze-button flow of `water_test_page` (lines 489-505): score the
request; only when a result came back is a history entry recorded. -/
def analyzeRequest (d : RawInput) (ts : String) (history : List HistoryEntry) :
    Option ScoreResult × List HistoryEntry :=
  match predict_water_quality_raw d with
  | none => (none, history)
  | some r => (some r, appendHistory ⟨ts, r, d⟩ history)

/-! Spec-side definitions, for refinement claims. -/

/-- Modelled from the spec: the quality-label thresholds of section 4.2
("score > 85 Excellent, > 70 Good, > 50 Fair, else Poor"). -/
def specQualityLabel (s : ℚ) : String :=
  if 85 < s then "Excellent"
  else if 70 < s then "Good"
  else if 50 < s then "Fair"
  else "Poor"

/-- Modelled from the spec: the sum of the nine weighted per-field
contributions of the section 4.2 table, in the table's row order
(pH, Hardness, TDS, Chloramines, Sulfate, Conductivity, Organic carbon,
Trihalomethanes, Turbidity). -/
def specContribSum (m : Measurement) : ℚ :=
  (if 6.5 ≤ m.ph ∧ m.ph ≤ 8.5 then (0.128 : ℚ) * 100 else (0.128 : ℚ) * 50) +
  (if m.hardness < 300 then (0.119 : ℚ) * 100 else (0.119 : ℚ) * 60) +
  (if m.solids < 500 then (0.114 : ℚ) * 100
   else if m.solids < 1000 then (0.114 : ℚ) * 70 else (0.114 : ℚ) * 40) +
  (if m.chloramines < 4 then (0.108 : ℚ) * 100 else (0.108 : ℚ) * 60) +
  (if m.sulfate < 250 then (0.142 : ℚ) * 100 else (0.142 : ℚ) * 50) +
  (if m.conductivity < 400 then (0.102 : ℚ) * 100 else (0.102 : ℚ) * 70) +
  (if m.organic_carbon < 2 then (0.098 : ℚ) * 100 else (0.098 : ℚ) * 70) +
  (if m.trihalomethanes < 80 then (0.095 : ℚ) * 100 else (0.095 : ℚ) * 50) +
  (if m.turbidity < 5 then (0.094 : ℚ) * 100 else (0.094 : ℚ) * 60)

/-! Concrete inputs used by counterexamples and witnesses. -/

/-- The spec's "Safe Water Example": pH 7.2, hardness 180, TDS 350,
chloramines 2.5, sulfate 180, conductivity 320, organic carbon 1.2,
trihalomethanes 45, turbidity 2.8. -/
def mSafe : Measurement := ⟨7.2, 180, 350, 2.5, 180, 320, 1.2, 45, 2.8⟩

/-- The safe example with TDS moved to the middle tier (700 ppm). -/
def mTier2 : Measurement := ⟨7.2, 180, 700, 2.5, 180, 320, 1.2, 45, 2.8⟩

/-- The spec's "Unsafe Water Example" (TDS 1200 lies in the top tier). -/
def mUnsafe : Measurement := ⟨5.2, 450, 1200, 6.5, 380, 650, 4.8, 120, 8.5⟩

/-- A measurement with pH 3 and the UI default values elsewhere. -/
def mPh3 : Measurement := ⟨3, 200, 400, 3, 200, 350, 1.5, 60, 3⟩

/-- A request whose `data` dictionary is missing the pH key. -/
def rawMissingPh : RawInput :=
  ⟨none, some 200, some 400, some 3, some 200, some 350, some 1.5, some 60, some 3⟩

/-! Helper lemmas. -/

/-- Projection of the scorer's confidence field. -/
lemma predict_confidence (d : Measurement) :
    (predict_water_quality d).confidence = round1 (finalScore d) := rfl

/-- Projection of the scorer's potable field. -/
lemma predict_potable (d : Measurement) :
    (predict_water_quality d).potable = decide (70 < finalScore d) := rfl

/-- Projection of the scorer's quality field. -/
lemma predict_quality (d : Measurement) :
    (predict_water_quality d).quality =
      (if 85 < finalScore d then "Excellent"
       else if 70 < finalScore d then "Good"
       else if 50 < finalScore d then "Fair"
       else "Poor") := rfl

/-- Projection of the scorer's parameters field. -/
lemma predict_parameters (d : Measurement) :
    (predict_water_quality d).parameters = parameterStatus d := rfl

/-- The half-even rounding used by `round1` never exceeds its argument by
more than one half. -/
lemma round1_num_le (x : ℚ) :
    ((if Int.fract (x * 10) = 1/2 then
        (if 2 ∣ ⌊x * 10⌋ then ⌊x * 10⌋ else ⌊x * 10⌋ + 1)
      else round (x * 10) : ℤ) : ℚ) ≤ x * 10 + 1/2 := by
  split_ifs with h1 h2
  · have := Int.floor_le (x * 10)
    linarith
  · rw [Int.fract] at h1
    push_cast
    linarith
  · have := abs_sub_round (x * 10)
    rw [abs_sub_le_iff] at this
    linarith [this.2]

/-- The half-even rounding used by `round1` is at least the floor of its
argument. -/
lemma round1_num_ge (x : ℚ) :
    (⌊x * 10⌋ : ℚ) ≤
      ((if Int.fract (x * 10) = 1/2 then
          (if 2 ∣ ⌊x * 10⌋ then ⌊x * 10⌋ else ⌊x * 10⌋ + 1)
        else round (x * 10) : ℤ) : ℚ) := by
  have hr : ⌊x * 10⌋ ≤ round (x * 10) := by
    rw [round_eq]
    exact Int.floor_le_floor (by linarith)
  split_ifs with h1 h2
  · rfl
  · push_cast; linarith
  · exact_mod_cast hr

/-- Bounds of the pH contribution. -/
lemma ph_contrib_bounds (d : Measurement) :
    64/10 ≤ ph_contrib d ∧ ph_contrib d ≤ 128/10 := by
  unfold ph_contrib w_ph; split <;> norm_num

/-- Bounds of the hardness contribution. -/
lemma hardness_contrib_bounds (d : Measurement) :
    714/100 ≤ hardness_contrib d ∧ hardness_contrib d ≤ 119/10 := by
  unfold hardness_contrib w_hardness; split <;> norm_num

/-- Bounds of the sulfate contribution. -/
lemma sulfate_contrib_bounds (d : Measurement) :
    71/10 ≤ sulfate_contrib d ∧ sulfate_contrib d ≤ 142/10 := by
  unfold sulfate_contrib w_sulfate; split <;> norm_num

/-- Bounds of the TDS contribution. -/
lemma solids_contrib_bounds (d : Measurement) :
    456/100 ≤ solids_contrib d ∧ solids_contrib d ≤ 114/10 := by
  unfold solids_contrib w_solids; split_ifs <;> norm_num

/-- Bounds of the chloramines contribution. -/
lemma chloramines_contrib_bounds (d : Measurement) :
    648/100 ≤ chloramines_contrib d ∧ chloramines_contrib d ≤ 108/10 := by
  unfold chloramines_contrib w_chloramines; split <;> norm_num

/-- Bounds of the conductivity contribution. -/
lemma conductivity_contrib_bounds (d : Measurement) :
    714/100 ≤ conductivity_contrib d ∧ conductivity_contrib d ≤ 102/10 := by
  unfold conductivity_contrib w_conductivity; split <;> norm_num

/-- Bounds of the organic-carbon contribution. -/
lemma organic_carbon_contrib_bounds (d : Measurement) :
    686/100 ≤ organic_carbon_contrib d ∧ organic_carbon_contrib d ≤ 98/10 := by
  unfold organic_carbon_contrib w_organic_carbon; split <;> norm_num

/-- Bounds of the trihalomethanes contribution. -/
lemma trihalomethanes_contrib_bounds (d : Measurement) :
    475/100 ≤ trihalomethanes_contrib d ∧ trihalomethanes_contrib d ≤ 95/10 := by
  unfold trihalomethanes_contrib w_trihalomethanes; split <;> norm_num

/-- Bounds of the turbidity contribution. -/
lemma turbidity_contrib_bounds (d : Measurement) :
    564/100 ≤ turbidity_contrib d ∧ turbidity_contrib d ≤ 94/10 := by
  unfold turbidity_contrib w_turbidity; split <;> norm_num

/-- The accumulated score lies between 56.07 (every field at its worst
factor) and 100 (every field good). -/
lemma rawScore_bounds (d : Measurement) :
    5607/100 ≤ rawScore d ∧ rawScore d ≤ 100 := by
  obtain ⟨a1, b1⟩ := ph_contrib_bounds d
  obtain ⟨a2, b2⟩ := hardness_contrib_bounds d
  obtain ⟨a3, b3⟩ := sulfate_contrib_bounds d
  obtain ⟨a4, b4⟩ := solids_contrib_bounds d
  obtain ⟨a5, b5⟩ := chloramines_contrib_bounds d
  obtain ⟨a6, b6⟩ := conductivity_contrib_bounds d
  obtain ⟨a7, b7⟩ := organic_carbon_contrib_bounds d
  obtain ⟨a8, b8⟩ := trihalomethanes_contrib_bounds d
  obtain ⟨a9, b9⟩ := turbidity_contrib_bounds d
  unfold rawScore
  constructor <;> linarith

/-- The confidence the scorer returns lies between 6.2 and 11.1. -/
lemma confidence_bounds (d : Measurement) :
    62/10 ≤ (predict_water_quality d).confidence ∧
      (predict_water_quality d).confidence ≤ 111/10 := by
  obtain ⟨hlo, hhi⟩ := rawScore_bounds d
  rw [predict_confidence, round1, finalScore]
  have hub := round1_num_le (rawScore d / 9)
  have hlb := round1_num_ge (rawScore d / 9)
  constructor
  · have h62 : (62 : ℤ) ≤ ⌊rawScore d / 9 * 10⌋ := by
      rw [Int.le_floor]
      push_cast
      linarith
    have h62q : (62 : ℚ) ≤ (⌊rawScore d / 9 * 10⌋ : ℚ) := by exact_mod_cast h62
    linarith
  · have hlt : ((if Int.fract (rawScore d / 9 * 10) = 1/2 then
        (if 2 ∣ ⌊rawScore d / 9 * 10⌋ then ⌊rawScore d / 9 * 10⌋
         else ⌊rawScore d / 9 * 10⌋ + 1)
      else round (rawScore d / 9 * 10) : ℤ) : ℚ) < 112 := by
      linarith
    have hle : ((if Int.fract (rawScore d / 9 * 10) = 1/2 then
        (if 2 ∣ ⌊rawScore d / 9 * 10⌋ then ⌊rawScore d / 9 * 10⌋
         else ⌊rawScore d / 9 * 10⌋ + 1)
      else round (rawScore d / 9 * 10) : ℤ) : ℚ) ≤ 111 := by
      have h1 : (if Int.fract (rawScore d / 9 * 10) = 1/2 then
          (if 2 ∣ ⌊rawScore d / 9 * 10⌋ then ⌊rawScore d / 9 * 10⌋
           else ⌊rawScore d / 9 * 10⌋ + 1)
        else round (rawScore d / 9 * 10) : ℤ) < 112 := by exact_mod_cast hlt
      have h2 : (if Int.fract (rawScore d / 9 * 10) = 1/2 then
          (if 2 ∣ ⌊rawScore d / 9 * 10⌋ then ⌊rawScore d / 9 * 10⌋
           else ⌊rawScore d / 9 * 10⌋ + 1)
        else round (rawScore d / 9 * 10) : ℤ) ≤ 111 := by omega
      exact_mod_cast h2
    linarith

/-- The spec's table sum equals the code's accumulated score. -/
lemma specContribSum_eq_rawScore (m : Measurement) :
    specContribSum m = rawScore m := by
  unfold specContribSum rawScore ph_contrib hardness_contrib sulfate_contrib
    solids_contrib chloramines_contrib conductivity_contrib
    organic_carbon_contrib trihalomethanes_contrib turbidity_contrib
    w_sulfate w_ph w_hardness w_solids w_chloramines w_conductivity
    w_organic_carbon w_trihalomethanes w_turbidity
  ring

/-- The scorer never marks water potable. -/
lemma potable_false (d : Measurement) :
    (predict_water_quality d).potable = false := by
  rw [predict_potable]
  apply decide_eq_false
  intro h
  obtain ⟨-, hhi⟩ := rawScore_bounds d
  rw [finalScore] at h
  linarith

/-- The scorer always grades the water "Poor". -/
lemma quality_poor (d : Measurement) :
    (predict_water_quality d).quality = "Poor" := by
  obtain ⟨-, hhi⟩ := rawScore_bounds d
  rw [predict_quality, finalScore]
  rw [if_neg (by intro h; linarith), if_neg (by intro h; linarith),
    if_neg (by intro h; linarith)]

/-- On the safe example every check takes its good branch, so the
accumulated score is the full 100. -/
lemma mSafe_rawScore : rawScore mSafe = 100 := by
  norm_num [rawScore, ph_contrib, hardness_contrib, sulfate_contrib,
    solids_contrib, chloramines_contrib, conductivity_contrib,
    organic_carbon_contrib, trihalomethanes_contrib, turbidity_contrib, mSafe,
    w_sulfate, w_ph, w_hardness, w_solids, w_chloramines, w_conductivity,
    w_organic_carbon, w_trihalomethanes, w_turbidity]

/-- On the safe example the scorer returns confidence 11.1
(`round(100/9, 1)`). -/
lemma mSafe_confidence : (predict_water_quality mSafe).confidence = 111/10 := by
  have hfs : finalScore mSafe = 100/9 := by rw [finalScore, mSafe_rawScore]
  rw [predict_confidence, hfs, round1]
  have hfl : ⌊(100:ℚ)/9 * 10⌋ = 111 := by norm_num [Int.floor_eq_iff]
  have hfr : Int.fract ((100:ℚ)/9 * 10) = 1/9 := by
    rw [Int.fract, hfl]; norm_num
  rw [hfr]
  norm_num [round_eq, Int.floor_eq_iff]

/-- On the safe example all nine recorded statuses are "good". -/
lemma mSafe_all_good :
    ((predict_water_quality mSafe).parameters.all
      (fun p => p.2.status == "good")) = true := by
  simp only [predict_parameters, parameterStatus, ph_entry, hardness_entry,
    sulfate_entry, solids_entry, chloramines_entry, conductivity_entry,
    organic_carbon_entry, trihalomethanes_entry, turbidity_entry, mSafe]
  norm_num

/-! Claim theorems. -/

/-- C1: for every measurement with all nine fields, the confidence is the
rounded sum of the nine weighted per-field contributions of the spec's
section 4.2 table divided by 9, the field count; the nine weights sum to
exactly 1, and dividing by that weight sum instead would give a different
confidence on every input. -/
theorem confidence_is_table_sum_div_9 (m : Measurement) :
    (predict_water_quality m).confidence = round1 (specContribSum m / 9) ∧
    w_sulfate + w_ph + w_hardness + w_solids + w_chloramines + w_conductivity +
      w_organic_carbon + w_trihalomethanes + w_turbidity = 1 ∧
    (predict_water_quality m).confidence ≠
      round1 (specContribSum m /
        (w_sulfate + w_ph + w_hardness + w_solids + w_chloramines +
         w_conductivity + w_organic_carbon + w_trihalomethanes + w_turbidity)) := by
  have hsum : w_sulfate + w_ph + w_hardness + w_solids + w_chloramines +
      w_conductivity + w_organic_carbon + w_trihalomethanes + w_turbidity = 1 := by
    norm_num [w_sulfate, w_ph, w_hardness, w_solids, w_chloramines,
      w_conductivity, w_organic_carbon, w_trihalomethanes, w_turbidity]
  have hspec := specContribSum_eq_rawScore m
  refine ⟨by rw [predict_confidence, finalScore, hspec], hsum, ?_⟩
  rw [hsum, div_one, hspec]
  have hcb := (confidence_bounds m).2
  have hlb := round1_num_ge (rawScore m)
  have hraw := (rawScore_bounds m).1
  have hfl : (560 : ℤ) ≤ ⌊rawScore m * 10⌋ := by
    rw [Int.le_floor]; push_cast; linarith
  have hflq : (560 : ℚ) ≤ (⌊rawScore m * 10⌋ : ℚ) := by exact_mod_cast hfl
  intro heq
  have h56 : (56 : ℚ) ≤ round1 (rawScore m) := by rw [round1]; linarith
  rw [heq] at hcb
  linarith

/-- C2 counterexample: on the spec's safe example (pH 7.2, hardness 180,
TDS 350, chloramines 2.5, sulfate 180, conductivity 320, organic carbon
1.2, trihalomethanes 45, turbidity 2.8) the scorer does NOT return
confidence 100, quality Excellent, potable true. -/
theorem safe_example_not_excellent :
    (predict_water_quality mSafe).potable = false ∧
    (predict_water_quality mSafe).confidence ≠ 100 ∧
    (predict_water_quality mSafe).quality ≠ "Excellent" := by
  refine ⟨potable_false mSafe, ?_, ?_⟩
  · rw [mSafe_confidence]; norm_num
  · rw [quality_poor mSafe]; decide

/-- C2 amended: on the spec's safe example all nine parameter statuses are
"good", and the scorer returns confidence 11.1, quality Poor and potable
false. -/
theorem safe_example_all_good_but_poor :
    ((predict_water_quality mSafe).parameters.all
      (fun p => p.2.status == "good")) = true ∧
    (predict_water_quality mSafe).confidence = 111/10 ∧
    (predict_water_quality mSafe).quality = "Poor" ∧
    (predict_water_quality mSafe).potable = false :=
  ⟨mSafe_all_good, mSafe_confidence, quality_poor mSafe, potable_false mSafe⟩

/-- C3: the nine weights sum to exactly 1, every raw weighted sum is at
most 100, the returned confidence is at most 100/9, and consequently the
scorer reports potable false and quality "Poor" on every input. -/
theorem scorer_confidence_capped (d : Measurement) :
    w_sulfate + w_ph + w_hardness + w_solids + w_chloramines + w_conductivity +
      w_organic_carbon + w_trihalomethanes + w_turbidity = 1 ∧
    rawScore d ≤ 100 ∧
    (predict_water_quality d).confidence ≤ 100/9 ∧
    (predict_water_quality d).potable = false ∧
    (predict_water_quality d).quality = "Poor" := by
  refine ⟨?_, (rawScore_bounds d).2, ?_, potable_false d, quality_poor d⟩
  · norm_num [w_sulfate, w_ph, w_hardness, w_solids, w_chloramines,
      w_conductivity, w_organic_carbon, w_trihalomethanes, w_turbidity]
  · have := (confidence_bounds d).2
    linarith

/-- C4: for every measurement the returned potable boolean equals the test
"confidence greater than 70" on the returned confidence. -/
theorem potable_iff_confidence_above_70 (d : Measurement) :
    (predict_water_quality d).potable = true ↔
      70 < (predict_water_quality d).confidence := by
  rw [potable_false d]
  have := (confidence_bounds d).2
  constructor
  · intro h; cases h
  · intro h; linarith

/-- C5: the returned confidence lies in the interval from 0 to 100, the
quality label is one of the four expected labels, and it coincides with the
spec's threshold label of the final score. -/
theorem confidence_range_quality_labels (d : Measurement) :
    0 ≤ (predict_water_quality d).confidence ∧
    (predict_water_quality d).confidence ≤ 100 ∧
    (predict_water_quality d).quality ∈
      ["Excellent", "Good", "Fair", "Poor"] ∧
    (predict_water_quality d).quality = specQualityLabel (finalScore d) := by
  obtain ⟨hlo, hhi⟩ := confidence_bounds d
  refine ⟨by linarith, by linarith, ?_, ?_⟩
  · rw [predict_quality]
    split_ifs <;> simp
  · rw [predict_quality, specQualityLabel]

/-- C6: the TDS field is scored in three tiers: below 500 it contributes
weight times 100 with status "good"; in [500, 1000) weight times 70 with
status "warning"; at or above 1000 weight times 40 with status "warning". -/
theorem tds_three_tier_scoring (m : Measurement) :
    (m.solids < 500 →
      solids_contrib m = w_solids * 100 ∧
      (predict_water_quality m).parameters.lookup "TDS" =
        some ⟨"good", m.solids, "ppm"⟩) ∧
    (500 ≤ m.solids → m.solids < 1000 →
      solids_contrib m = w_solids * 70 ∧
      (predict_water_quality m).parameters.lookup "TDS" =
        some ⟨"warning", m.solids, "ppm"⟩) ∧
    (1000 ≤ m.solids →
      solids_contrib m = w_solids * 40 ∧
      (predict_water_quality m).parameters.lookup "TDS" =
        some ⟨"warning", m.solids, "ppm"⟩) := by
  refine ⟨fun h1 => ⟨?_, ?_⟩, fun h1 h2 => ⟨?_, ?_⟩, fun h1 => ⟨?_, ?_⟩⟩
  · unfold solids_contrib; rw [if_pos h1]
  · have e : solids_entry m = ⟨"good", m.solids, "ppm"⟩ := by
      unfold solids_entry; rw [if_pos h1]
    rw [predict_parameters, parameterStatus]
    simp [List.lookup, e]
  · unfold solids_contrib; rw [if_neg (by linarith), if_pos h2]
  · have e : solids_entry m = ⟨"warning", m.solids, "ppm"⟩ := by
      unfold solids_entry; rw [if_neg (by linarith), if_pos h2]
    rw [predict_parameters, parameterStatus]
    simp [List.lookup, e]
  · unfold solids_contrib; rw [if_neg (by linarith), if_neg (by linarith)]
  · have e : solids_entry m = ⟨"warning", m.solids, "ppm"⟩ := by
      unfold solids_entry; rw [if_neg (by linarith), if_neg (by linarith)]
    rw [predict_parameters, parameterStatus]
    simp [List.lookup, e]

/-- C6 witness: the three tiers realized at TDS 350, 700 and 1200. -/
theorem tds_three_tier_scoring_check :
    (solids_contrib mSafe = w_solids * 100 ∧
      (predict_water_quality mSafe).parameters.lookup "TDS" =
        some ⟨"good", (350 : ℚ), "ppm"⟩) ∧
    (solids_contrib mTier2 = w_solids * 70 ∧
      (predict_water_quality mTier2).parameters.lookup "TDS" =
        some ⟨"warning", (700 : ℚ), "ppm"⟩) ∧
    (solids_contrib mUnsafe = w_solids * 40 ∧
      (predict_water_quality mUnsafe).parameters.lookup "TDS" =
        some ⟨"warning", (1200 : ℚ), "ppm"⟩) :=
  ⟨(tds_three_tier_scoring mSafe).1 (by norm_num [mSafe]),
   (tds_three_tier_scoring mTier2).2.1 (by norm_num [mTier2])
     (by norm_num [mTier2]),
   (tds_three_tier_scoring mUnsafe).2.2 (by norm_num [mUnsafe])⟩

/-- A single append never leaves more than 50 entries. -/
lemma appendHistory_length_le (e : HistoryEntry) (h : List HistoryEntry) :
    (appendHistory e h).length ≤ 50 := by
  unfold appendHistory
  simp only []
  split_ifs with hl
  · simp only [List.length_take]
    omega
  · simp only [List.length_cons] at hl ⊢
    omega

/-- The history stays capped along any fold of appends. -/
lemma foldl_appendHistory_length (es : List HistoryEntry) :
    ∀ acc : List HistoryEntry, acc.length ≤ 50 →
      (es.foldl (fun h e => appendHistory e h) acc).length ≤ 50 := by
  induction es with
  | nil => intro acc hacc; simpa using hacc
  | cons e es ih =>
      intro acc hacc
      simpa using ih (appendHistory e acc) (appendHistory_length_le e acc)

/-- C7: starting from the empty session history, any sequence of appends
leaves at most 50 entries, and clearing always leaves the ledger empty. -/
theorem history_capped_and_clear_empty :
    (∀ es : List HistoryEntry,
      (es.foldl (fun h e => appendHistory e h) []).length ≤ 50) ∧
    (∀ h : List HistoryEntry, clearHistory h = []) :=
  ⟨fun es => foldl_appendHistory_length es [] (by simp), fun _ => rfl⟩

/-- C8: when scoring fails (the scorer returns no result), the request
yields no result and the session history is left exactly as it was. -/
theorem failed_scoring_records_nothing (d : RawInput) (ts : String)
    (history : List HistoryEntry) (h : predict_water_quality_raw d = none) :
    analyzeRequest d ts history = (none, history) := by
  unfold analyzeRequest
  rw [h]

/-- C8 witness: a request missing the pH field scores to nothing and
leaves the (empty) history unchanged. -/
theorem failed_scoring_records_nothing_check :
    predict_water_quality_raw rawMissingPh = none ∧
    analyzeRequest rawMissingPh "2026-10-12 00:00:00" [] = (none, []) :=
  ⟨rfl, failed_scoring_records_nothing rawMissingPh "2026-10-12 00:00:00" [] rfl⟩

/-- C9: whenever pH is below 4 or above 10, the validator emits the hard
out-of-range warning and not the soft WHO-range warning. -/
theorem ph_hard_warning_precedence (m : Measurement)
    (h : m.ph < 4 ∨ 10 < m.ph) :
    ph_hard_warning ∈ validate_input m ∧
      ph_soft_warning ∉ validate_input m := by
  unfold validate_input
  rw [if_pos h]
  constructor
  · simp [List.mem_append, List.mem_singleton]
  · intro hmem
    split_ifs at hmem <;> exact absurd hmem (by decide)

/-- C9 witness: at pH 3 the hard warning appears and the soft one does not. -/
theorem ph_hard_warning_precedence_check :
    ph_hard_warning ∈ validate_input mPh3 ∧
      ph_soft_warning ∉ validate_input mPh3 :=
  ph_hard_warning_precedence mPh3 (Or.inl (by norm_num [mPh3]))

/-- C10: scoring is deterministic: the scorer is a pure function of the
measurement, and the score a request produces is independent of the
session history and the timestamp, so two runs on the same input yield
identical results. -/
theorem scoring_deterministic (d : Measurement) (r : RawInput)
    (ts1 ts2 : String) (hist1 hist2 : List HistoryEntry) :
    predict_water_quality d = predict_water_quality d ∧
    (analyzeRequest r ts1 hist1).1 = (analyzeRequest r ts2 hist2).1 := by
  refine ⟨rfl, ?_⟩
  cases hr : predict_water_quality_raw r <;> simp [analyzeRequest, hr]

end WaterQuality
